import Mathlib

/-!
Shallow embedding of the hotel-management-system booking, payment,
cancellation and review logic (src/app.js), together with theorems that
settle the frozen claims about the natural-language specification.

Conventions of the embedding:
* MongoDB collections are lists of records; document ids are natural numbers.
* Dates are integers, counting milliseconds (JavaScript Date values).
* `findOneAndUpdate` / saving a document found by id is `updateFirst`,
  which rewrites the first matching element of the list.
* The external processor's signature scheme is abstracted by `signPayload`;
  the webhook accepts an event exactly when the supplied signature equals
  the one computed from the shared secret and the serialized payload,
  mirroring the fail-closed use of `stripe.webhooks.constructEvent`.
-/

namespace HotelSys

/-- The `status` enum of `bookingSchema`. -/
inductive BookingStatus where
  | pending
  | confirmed
  | cancelled
deriving DecidableEq, Repr

/-- The `paymentStatus` enum of `bookingSchema`. -/
inductive PaymentStatus where
  | pending
  | completed
  | failed
deriving DecidableEq, Repr

/-- The `status` enum of `paymentSchema` (the Payment audit record). -/
inductive PayStatus where
  | pending
  | succeeded
  | failed
deriving DecidableEq, Repr

/-- A Booking document (`bookingSchema`). -/
structure Booking where
  id : Nat
  hotel : Nat
  user : Nat
  checkInDate : Int
  checkOutDate : Int
  numberOfRooms : Nat
  totalPrice : Int
  status : BookingStatus
  paymentStatus : PaymentStatus
  paymentIntentId : Option String
deriving DecidableEq, Repr

/-- A Payment document (`paymentSchema`). -/
structure Payment where
  id : Nat
  booking : Nat
  user : Nat
  amount : Int
  paymentIntentId : String
  status : PayStatus
deriving DecidableEq, Repr

/-- A Review document (`reviewSchema`): the rating is whatever number the
request body carried (`Number(req.body.rating)`), with no bounds check. -/
structure Review where
  id : Nat
  rating : ℚ
  authorId : Nat
deriving DecidableEq, Repr

/-- A Hotel document (`hotelSchema`) with its review set populated. -/
structure HotelDoc where
  id : Nat
  price : Int
  totalRooms : Int
  authorId : Nat
  averageRating : ℚ
  reviews : List Review
deriving DecidableEq, Repr

/-- A User document (`userSchema`), reduced to what the core logic reads. -/
structure UserDoc where
  id : Nat
  isAdmin : Bool
deriving DecidableEq, Repr

/-- The persisted state the booking/payment core manipulates. -/
structure DB where
  bookings : List Booking
  payments : List Payment
deriving DecidableEq, Repr

/-- Rewrite the first element of the list satisfying `p` using `f`
(model of Mongo `findOneAndUpdate`, and of saving a document that was
fetched by its unique id). -/
def updateFirst (p : α → Bool) (f : α → α) : List α → List α
  | [] => []
  | x :: xs => if p x then f x :: xs else x :: updateFirst p f xs

/-- The update applied to a booking on payment confirmation:
`{ status: 'confirmed', paymentStatus: 'completed' }`. -/
def confirmBookingUpdate (b : Booking) : Booking :=
  { b with status := .confirmed, paymentStatus := .completed }

/-- A parsed processor callback event (`event.type`,
`event.data.object.id`, `event.data.object.metadata.bookingId`). -/
structure StripeEvent where
  type : String
  intentId : String
  bookingId : Nat
deriving DecidableEq, Repr

/-- Canonical serialization of an event payload, used by the abstract
signature scheme. -/
def StripeEvent.serialize (e : StripeEvent) : String :=
  e.type ++ "|" ++ e.intentId ++ "|" ++ toString e.bookingId

/-- Abstract model of the processor's payload signature (shared-secret MAC). -/
def signPayload (secret payload : String) : String :=
  secret ++ ":" ++ payload

/-- Outcome of the webhook endpoint. -/
inductive WebhookResult where
  | received
  | sigError
deriving DecidableEq, Repr

/-- Endpoint `POST /webhook/stripe`: verify the signature against the shared secret
(fail closed with a 400 and no state change on mismatch); on a verified
`payment_intent.succeeded` event, set the metadata-identified booking to
confirmed/completed and set the Payment record matched by intent id to
succeeded; any other verified event type is acknowledged untouched. -/
def webhookStripe (secret : String) (db : DB) (e : StripeEvent) (sig : String) :
    DB × WebhookResult :=
  if sig = signPayload secret e.serialize then
    if e.type = "payment_intent.succeeded" then
      ({ bookings := (updateFirst (fun b => decide (b.id = e.bookingId))
            confirmBookingUpdate db.bookings),
         payments := (updateFirst (fun p => decide (p.paymentIntentId = e.intentId))
            (fun p => { p with status := .succeeded }) db.payments) }, .received)
    else (db, .received)
  else (db, .sigError)

/-- Outcome of the client-redirect fallback endpoint. -/
inductive FallbackResult where
  | confirmedRedirect
  | redirectedAway
deriving DecidableEq, Repr

/-- Endpoint `GET /payment-success?booking_id=...`: if a booking id is supplied, the
booking exists and belongs to the session user, set it to
confirmed/completed and set the first Payment record referencing the
booking to succeeded; otherwise redirect away without changing anything. -/
def paymentSuccess (db : DB) (sessionUserId : Nat) (bookingIdQuery : Option Nat) :
    DB × FallbackResult :=
  match bookingIdQuery with
  | none => (db, .redirectedAway)
  | some bid =>
    match db.bookings.find? (fun b => decide (b.id = bid)) with
    | none => (db, .redirectedAway)
    | some b =>
      if b.user = sessionUserId then
        ({ bookings := (updateFirst (fun x => decide (x.id = bid))
              confirmBookingUpdate db.bookings),
           payments := (updateFirst (fun p => decide (p.booking = bid))
              (fun p => { p with status := .succeeded }) db.payments) },
         .confirmedRedirect)
      else (db, .redirectedAway)

/-- Outcome of the cancellation endpoint. -/
inductive CancelResult where
  | notFoundOrNotOwner
  | alreadyCancelled
  | windowClosed
  | ok
deriving DecidableEq, Repr

/-- Milliseconds per day, `1000 * 60 * 60 * 24`. -/
def msPerDay : Int := 1000 * 60 * 60 * 24

/-- Endpoint `POST /bookings/:id/cancel`: redirect if the booking is missing or not
owned by the session user; report an already-cancelled booking; refuse when
`checkInDate <= now + 7 days`; otherwise set only `status := cancelled`. -/
def cancelBooking (db : DB) (sessionUserId bid : Nat) (now : Int) :
    DB × CancelResult :=
  match db.bookings.find? (fun b => decide (b.id = bid)) with
  | none => (db, .notFoundOrNotOwner)
  | some b =>
    if b.user = sessionUserId then
      if b.status = BookingStatus.cancelled then (db, .alreadyCancelled)
      else if b.checkInDate ≤ now + 7 * msPerDay then (db, .windowClosed)
      else
        ({ db with bookings := (updateFirst (fun x => decide (x.id = bid))
              (fun x => { x with status := .cancelled }) db.bookings) }, .ok)
    else (db, .notFoundOrNotOwner)

/-- The Mongo overlap filter of the availability query:
`checkInDate <= checkOut && checkOutDate >= checkIn`. -/
def overlapsInterval (b : Booking) (checkIn checkOut : Int) : Bool :=
  decide (b.checkInDate ≤ checkOut) && decide (b.checkOutDate ≥ checkIn)

/-- The `Booking.find` availability query: bookings on the hotel with
status `confirmed` whose interval overlaps the requested one. -/
def findOverlappingConfirmed (bookings : List Booking) (hotelId : Nat)
    (checkIn checkOut : Int) : List Booking :=
  bookings.filter (fun b => decide (b.hotel = hotelId)
    && decide (b.status = BookingStatus.confirmed)
    && overlapsInterval b checkIn checkOut)

/-- The source reduction `existingBookings.reduce((sum, booking) => sum + booking.numberOfRooms, 0)`. -/
def bookedRoomsTotal (l : List Booking) : Nat :=
  l.foldl (fun s b => s + b.numberOfRooms) 0

/-- The source expression `hotel.totalRooms - bookedRooms`. -/
def availableRooms (hotel : HotelDoc) (bookings : List Booking)
    (checkIn checkOut : Int) : Int :=
  hotel.totalRooms -
    bookedRoomsTotal (findOverlappingConfirmed bookings hotel.id checkIn checkOut)

/-- The source expression `Math.ceil((checkOut - checkIn) / (1000 * 60 * 60 * 24))`. -/
def nightsOf (checkIn checkOut : Int) : Int :=
  ⌈((checkOut - checkIn : Int) : ℚ) / ((msPerDay : Int) : ℚ)⌉

/-- Outcome of `POST /hotels/:id/book`. -/
inductive BookResult where
  | invalidDates
  | insufficientRooms (available : Int)
  | created (bookingId : Nat)
deriving DecidableEq, Repr

/-- Endpoint `POST /hotels/:id/book`: reject past or inverted dates, reject requests
exceeding availability (reporting the available count), otherwise price the
stay and append a new pending/pending booking. -/
def bookRequest (db : DB) (hotel : HotelDoc) (userId newId : Nat)
    (checkIn checkOut : Int) (numberOfRooms : Int) (now : Int) :
    DB × BookResult :=
  if checkIn < now ∨ checkOut ≤ checkIn then (db, .invalidDates)
  else
    let available := availableRooms hotel db.bookings checkIn checkOut
    if numberOfRooms > available then (db, .insufficientRooms available)
    else
      let nights := nightsOf checkIn checkOut
      let price := hotel.price * numberOfRooms * nights
      ({ db with bookings := (db.bookings ++
          [{ id := newId, hotel := hotel.id, user := userId,
             checkInDate := checkIn, checkOutDate := checkOut,
             numberOfRooms := numberOfRooms.toNat, totalPrice := price,
             status := .pending, paymentStatus := .pending,
             paymentIntentId := none }]) }, .created newId)

/-- The verified-stay check of the review route: some booking by this user
on this hotel is confirmed with completed payment. -/
def hasBookedCompleted (bookings : List Booking) (hotelId userId : Nat) : Bool :=
  bookings.any (fun b => decide (b.hotel = hotelId) && decide (b.user = userId)
    && decide (b.status = BookingStatus.confirmed)
    && decide (b.paymentStatus = PaymentStatus.completed))

/-- The rating recomputation shared by the review routes:
`sum / count` when any review exists, `0` otherwise. -/
def recomputeAverage (reviews : List Review) : ℚ :=
  if reviews.length > 0 then
    (reviews.map (fun r => r.rating)).sum / (reviews.length : ℚ)
  else 0

/-- Outcome of `POST /hotels/:id/reviews`. -/
inductive ReviewResult where
  | ownHotel
  | adminBlocked
  | notStayed
  | alreadyReviewed
  | createdOk
deriving DecidableEq, Repr

/-- Endpoint `POST /hotels/:id/reviews`: owner and admin restrictions, verified-stay
check, duplicate check; then push the review (its rating taken verbatim
from the request) and recompute the average over the fresh review set. -/
def createReview (bookings : List Booking) (h : HotelDoc) (user : UserDoc)
    (newId : Nat) (rating : ℚ) : HotelDoc × ReviewResult :=
  if h.authorId = user.id then (h, .ownHotel)
  else if user.isAdmin then (h, .adminBlocked)
  else if hasBookedCompleted bookings h.id user.id then
    if h.reviews.any (fun r => decide (r.authorId = user.id)) then
      (h, .alreadyReviewed)
    else
      let rs := h.reviews ++ [{ id := newId, rating := rating, authorId := user.id }]
      ({ h with reviews := rs, averageRating := recomputeAverage rs }, .createdOk)
  else (h, .notStayed)

/-- Outcome of review edit/delete. -/
inductive ReviewEditResult where
  | notFound
  | notOwner
  | editOk
deriving DecidableEq, Repr

/-- Endpoint `PUT /hotels/:id/reviews/:reviewId`: ownership check, rating update,
average recomputation over the current review set. -/
def updateReview (h : HotelDoc) (sessionUserId reviewId : Nat) (newRating : ℚ) :
    HotelDoc × ReviewEditResult :=
  match h.reviews.find? (fun r => decide (r.id = reviewId)) with
  | none => (h, .notFound)
  | some r =>
    if r.authorId = sessionUserId then
      let rs := updateFirst (fun x => decide (x.id = reviewId))
        (fun x => { x with rating := newRating }) h.reviews
      ({ h with reviews := rs, averageRating := recomputeAverage rs }, .editOk)
    else (h, .notOwner)

/-- Endpoint `DELETE /hotels/:id/reviews/:reviewId`: ownership check, `$pull` of the
review id, deletion, average recomputation over the current review set. -/
def deleteReview (h : HotelDoc) (sessionUserId reviewId : Nat) :
    HotelDoc × ReviewEditResult :=
  match h.reviews.find? (fun r => decide (r.id = reviewId)) with
  | none => (h, .notFound)
  | some r =>
    if r.authorId = sessionUserId then
      let rs := h.reviews.filter (fun x => decide (¬ x.id = reviewId))
      ({ h with reviews := rs, averageRating := recomputeAverage rs }, .editOk)
    else (h, .notOwner)

/-- The spec's overlap test, written as a proposition:
existing.checkIn ≤ requested.checkOut AND existing.checkOut ≥ requested.checkIn. -/
abbrev specOverlap (b : Booking) (checkIn checkOut : Int) : Prop :=
  b.checkInDate ≤ checkOut ∧ b.checkOutDate ≥ checkIn

/-- The spec's committed-rooms count: the sum of `numberOfRooms` over exactly
those bookings on the hotel whose status is confirmed and that satisfy the
overlap test. -/
def specCommittedRooms (bookings : List Booking) (hotelId : Nat)
    (checkIn checkOut : Int) : Nat :=
  ((bookings.filter fun b =>
      decide (b.hotel = hotelId ∧ b.status = BookingStatus.confirmed
        ∧ specOverlap b checkIn checkOut)).map
    (fun b => b.numberOfRooms)).sum

/-! Concrete fixtures used by counterexamples and witnesses. -/

/-- A pending booking awaiting payment. -/
def pendingBooking : Booking :=
  { id := 1, hotel := 2, user := 7, checkInDate := 0, checkOutDate := 86400000,
    numberOfRooms := 1, totalPrice := 100, status := .pending,
    paymentStatus := .pending, paymentIntentId := some "pi_1" }

/-- The pending Payment record of `pendingBooking`'s first payment attempt. -/
def pendingPayment : Payment :=
  { id := 0, booking := 1, user := 7, amount := 100, paymentIntentId := "pi_1",
    status := .pending }

/-- A state in which booking 1 is entirely unpaid: booking pending/pending,
its single Payment record pending, and no processor success ever received. -/
def unpaidDB : DB := { bookings := [pendingBooking], payments := [pendingPayment] }

/-- Booking 1 after the owning user cancelled it. -/
def cancelledBooking : Booking := { pendingBooking with status := .cancelled }

/-- A state in which booking 1 is cancelled. -/
def cancelledDB : DB :=
  { bookings := [cancelledBooking], payments := [pendingPayment] }

/-- A processor success event for booking 1's first payment intent. -/
def firstEvent : StripeEvent :=
  { type := "payment_intent.succeeded", intentId := "pi_1", bookingId := 1 }

/-- Booking 1 after a retried payment-page load created a second intent. -/
def retryBooking : Booking := { pendingBooking with paymentIntentId := some "pi_2" }

/-- The pending Payment record of the second payment attempt. -/
def secondPayment : Payment :=
  { id := 1, booking := 1, user := 7, amount := 100, paymentIntentId := "pi_2",
    status := .pending }

/-- A state in which booking 1 has two pending payment attempts: the
processor will report success for the second intent. -/
def twoAttemptDB : DB :=
  { bookings := [retryBooking], payments := [pendingPayment, secondPayment] }

/-- A processor success event for booking 1's second payment intent. -/
def retryEvent : StripeEvent :=
  { type := "payment_intent.succeeded", intentId := "pi_2", bookingId := 1 }

/-- A hotel fixture (price 100, 10 rooms, owned by user 9, no reviews). -/
def sampleHotel : HotelDoc :=
  { id := 2, price := 100, totalRooms := 10, authorId := 9,
    averageRating := 0, reviews := [] }

/-- Booking whose check-in is exactly 8 days away (cancellable). -/
def farBooking : Booking :=
  { pendingBooking with checkInDate := 8 * msPerDay, checkOutDate := 9 * msPerDay }

/-- State holding only `farBooking`. -/
def farDB : DB := { bookings := [farBooking], payments := [] }

/-- Booking whose check-in is exactly 6 days away (inside the window). -/
def soonBooking : Booking :=
  { pendingBooking with checkInDate := 6 * msPerDay, checkOutDate := 9 * msPerDay }

/-- State holding only `soonBooking`. -/
def soonDB : DB := { bookings := [soonBooking], payments := [] }

/-- A confirmed, fully paid booking 8 days from check-in. -/
def paidFarBooking : Booking :=
  { farBooking with status := .confirmed, paymentStatus := .completed }

/-- State with a confirmed paid booking and its succeeded Payment record. -/
def paidFarDB : DB :=
  { bookings := [paidFarBooking],
    payments := [{ pendingPayment with status := .succeeded }] }

/-- A non-admin user eligible to review hotel 2. -/
def reviewer : UserDoc := { id := 5, isAdmin := false }

/-- A completed stay by `reviewer` at hotel 2. -/
def paidStayBooking : Booking :=
  { id := 1, hotel := 2, user := 5, checkInDate := 0, checkOutDate := 86400000,
    numberOfRooms := 1, totalPrice := 100, status := .confirmed,
    paymentStatus := .completed, paymentIntentId := some "pi_1" }

/-- A 5-star review by user 3. -/
def fiveStar : Review := { id := 10, rating := 5, authorId := 3 }

/-- A 3-star review by user 4. -/
def threeStar : Review := { id := 11, rating := 3, authorId := 4 }

/-- Hotel 2 carrying the two reviews, with their recomputed average 4. -/
def ratedHotel : HotelDoc :=
  { sampleHotel with reviews := [fiveStar, threeStar], averageRating := 4 }

/-- The empty state. -/
def emptyDB : DB := { bookings := [], payments := [] }

/-- The booking the C6 witness expects: 2 rooms, 3 nights at price 100. -/
def bookedOnceBooking : Booking :=
  { id := 1, hotel := 2, user := 5, checkInDate := 0, checkOutDate := 259200000,
    numberOfRooms := 2, totalPrice := 600, status := .pending,
    paymentStatus := .pending, paymentIntentId := none }

/-! Helper lemmas. -/

theorem foldl_add_eq_sum (f : α → Nat) (l : List α) :
    ∀ n : Nat, l.foldl (fun s a => s + f a) n = n + (l.map f).sum := by
  induction l with
  | nil => intro n; simp
  | cons x xs ih => intro n; simp [ih, Nat.add_assoc]

theorem findOverlappingConfirmed_eq_spec_filter (bookings : List Booking)
    (hotelId : Nat) (checkIn checkOut : Int) :
    findOverlappingConfirmed bookings hotelId checkIn checkOut
      = bookings.filter fun b =>
          decide (b.hotel = hotelId ∧ b.status = BookingStatus.confirmed
            ∧ specOverlap b checkIn checkOut) := by
  unfold findOverlappingConfirmed
  apply List.filter_congr
  intro x _
  simp [overlapsInterval, Bool.and_assoc]

theorem find?_decomp {α : Type _} {p : α → Bool} {l : List α} {b : α}
    (h : l.find? p = some b) :
    ∃ l₁ l₂, l = l₁ ++ b :: l₂ ∧ (∀ x ∈ l₁, p x = false) ∧
      ∀ f : α → α, updateFirst p f l = l₁ ++ f b :: l₂ := by
  induction l with
  | nil => simp at h
  | cons x xs ih =>
    by_cases hx : p x
    · rw [List.find?_cons_of_pos _ hx] at h
      obtain rfl : x = b := by injection h
      exact ⟨[], xs, rfl, by simp, fun f => by simp [updateFirst, hx]⟩
    · rw [List.find?_cons_of_neg _ hx] at h
      obtain ⟨l₁, l₂, hl, h₁, hu⟩ := ih h
      refine ⟨x :: l₁, l₂, by simp [hl], ?_, fun f => by simp [updateFirst, hx, hu f]⟩
      intro y hy
      rcases List.mem_cons.mp hy with rfl | hy2
      · simpa using hx
      · exact h₁ y hy2

theorem mem_updateFirst_of_find? {α : Type _} {p : α → Bool} {f : α → α}
    {l : List α} {b : α} (h : l.find? p = some b) : f b ∈ updateFirst p f l := by
  obtain ⟨l₁, l₂, _, _, hu⟩ := find?_decomp h
  rw [hu f]
  exact List.mem_append.mpr (Or.inr (List.mem_cons_self _ _))

theorem updateFirst_idem {α : Type _} {p : α → Bool} {f : α → α}
    (hp : ∀ a, p (f a) = p a) (hf : ∀ a, f (f a) = f a) :
    ∀ l : List α, updateFirst p f (updateFirst p f l) = updateFirst p f l := by
  intro l
  induction l with
  | nil => rfl
  | cons x xs ih =>
    by_cases hx : p x
    · simp [updateFirst, hx, hp x, hf x]
    · simp [updateFirst, hx, ih]

theorem find?_updateFirst {α : Type _} {p : α → Bool} {f : α → α}
    (hp : ∀ a, p (f a) = p a) :
    ∀ l : List α, (updateFirst p f l).find? p = (l.find? p).map f := by
  intro l
  induction l with
  | nil => rfl
  | cons x xs ih =>
    by_cases hx : p x
    · have hfx : p (f x) = true := by rw [hp x]; exact hx
      simp [updateFirst, hx, List.find?_cons_of_pos _ hfx]
    · simp [updateFirst, hx, List.find?_cons_of_neg _ hx, ih]

theorem updateFirst_congr {α : Type _} {p q : α → Bool} (f : α → α) :
    ∀ l : List α, (∀ a ∈ l, p a = q a) → updateFirst p f l = updateFirst q f l := by
  intro l
  induction l with
  | nil => intro _; rfl
  | cons x xs ih =>
    intro h
    have hx := h x (List.mem_cons_self x xs)
    by_cases hq : q x
    · simp [updateFirst, hx, hq]
    · simp [updateFirst, hx, hq, ih (fun a ha => h a (List.mem_cons_of_mem _ ha))]

/-- C5: for every hotel and requested interval, the committed-rooms count
equals the sum of numberOfRooms over exactly those bookings on that hotel
whose status is confirmed and that satisfy the overlap test
existing.checkIn ≤ requested.checkOut AND existing.checkOut ≥
requested.checkIn; available rooms equals hotel.totalRooms minus that sum,
and pending or cancelled bookings contribute nothing to it. -/
theorem availability_counts_confirmed_overlaps (hotel : HotelDoc)
    (bookings : List Booking) (checkIn checkOut : Int) :
    bookedRoomsTotal (findOverlappingConfirmed bookings hotel.id checkIn checkOut)
        = specCommittedRooms bookings hotel.id checkIn checkOut
    ∧ availableRooms hotel bookings checkIn checkOut
        = hotel.totalRooms
            - (specCommittedRooms bookings hotel.id checkIn checkOut : Int)
    ∧ ∀ b : Booking, ∀ s : BookingStatus,
        s = BookingStatus.pending ∨ s = BookingStatus.cancelled →
        specCommittedRooms ({ b with status := s } :: bookings)
            hotel.id checkIn checkOut
          = specCommittedRooms bookings hotel.id checkIn checkOut := by
  have hmain : bookedRoomsTotal
      (findOverlappingConfirmed bookings hotel.id checkIn checkOut)
        = specCommittedRooms bookings hotel.id checkIn checkOut := by
    unfold bookedRoomsTotal specCommittedRooms
    rw [foldl_add_eq_sum, findOverlappingConfirmed_eq_spec_filter]
    simp
  refine ⟨hmain, ?_, ?_⟩
  · unfold availableRooms
    rw [hmain]
  · intro b s hs
    unfold specCommittedRooms
    rw [List.filter_cons]
    rcases hs with rfl | rfl <;> simp

/-- C6: a booking request fails with InvalidDateRange iff checkIn < now or
checkOut ≤ checkIn; otherwise it fails with InsufficientAvailability iff
numberOfRooms exceeds the available count, the error carrying that count;
otherwise it creates a pending booking priced
hotel.price × numberOfRooms × ceil((checkOut − checkIn) / 1 day); and on
either failure the state is unchanged. -/
theorem bookRequest_validation_and_pricing (db : DB) (hotel : HotelDoc)
    (userId newId : Nat) (checkIn checkOut n now : Int) :
    ((bookRequest db hotel userId newId checkIn checkOut n now).2
        = BookResult.invalidDates ↔ (checkIn < now ∨ checkOut ≤ checkIn))
    ∧ (¬ (checkIn < now ∨ checkOut ≤ checkIn) →
        ((bookRequest db hotel userId newId checkIn checkOut n now).2
            = BookResult.insufficientRooms
                (availableRooms hotel db.bookings checkIn checkOut)
          ↔ n > availableRooms hotel db.bookings checkIn checkOut))
    ∧ (∀ a : Int, (bookRequest db hotel userId newId checkIn checkOut n now).2
          = BookResult.insufficientRooms a →
        a = availableRooms hotel db.bookings checkIn checkOut
          ∧ n > availableRooms hotel db.bookings checkIn checkOut)
    ∧ (¬ (checkIn < now ∨ checkOut ≤ checkIn) →
        ¬ n > availableRooms hotel db.bookings checkIn checkOut →
        bookRequest db hotel userId newId checkIn checkOut n now
          = ({ db with bookings := (db.bookings ++
              [{ id := newId, hotel := hotel.id, user := userId,
                 checkInDate := checkIn, checkOutDate := checkOut,
                 numberOfRooms := n.toNat,
                 totalPrice := hotel.price * n *
                   ⌈((checkOut - checkIn : Int) : ℚ) / ((msPerDay : Int) : ℚ)⌉,
                 status := BookingStatus.pending,
                 paymentStatus := PaymentStatus.pending,
                 paymentIntentId := none }]) }, BookResult.created newId))
    ∧ ((bookRequest db hotel userId newId checkIn checkOut n now).2
          ≠ BookResult.created newId →
        (bookRequest db hotel userId newId checkIn checkOut n now).1 = db) := by
  by_cases hd : checkIn < now ∨ checkOut ≤ checkIn
  · refine ⟨?_, ?_, ?_, ?_, ?_⟩ <;> simp [bookRequest, hd]
  · by_cases hn : n > availableRooms hotel db.bookings checkIn checkOut
    · refine ⟨?_, ?_, ?_, ?_, ?_⟩ <;> simp [bookRequest, hd, hn]
    · refine ⟨?_, ?_, ?_, ?_, ?_⟩ <;> simp [bookRequest, hd, hn, nightsOf]

/-- Witness for C5 at a concrete state: with one confirmed overlapping
booking committed, a newly added pending booking contributes nothing. -/
theorem availability_counts_confirmed_overlaps_witness :
    specCommittedRooms
        ({ pendingBooking with status := BookingStatus.pending } :: [paidStayBooking])
          sampleHotel.id 0 86400000
      = specCommittedRooms [paidStayBooking] sampleHotel.id 0 86400000
    ∧ specCommittedRooms [paidStayBooking] sampleHotel.id 0 86400000 = 1 :=
  ⟨(availability_counts_confirmed_overlaps sampleHotel [paidStayBooking] 0 86400000).2.2
      pendingBooking BookingStatus.pending (Or.inl rfl), by decide⟩

/-- Witness for C6: hotel priced 100 per night, 2 rooms, a 3-day stay
booked from an empty state yields a pending booking priced 600. -/
theorem bookRequest_validation_and_pricing_witness :
    bookRequest emptyDB sampleHotel 5 1 0 259200000 2 0
      = ({ bookings := [bookedOnceBooking], payments := [] }, BookResult.created 1) := by
  have h := (bookRequest_validation_and_pricing emptyDB
      sampleHotel 5 1 0 259200000 2 0).2.2.2.1 (by norm_num) (by decide)
  rw [h]
  have hc : ⌈((259200000 - 0 : Int) : ℚ) / ((msPerDay : Int) : ℚ)⌉ = 3 := by
    rw [show ((259200000 - 0 : Int) : ℚ) / ((msPerDay : Int) : ℚ)
        = ((3 : Int) : ℚ) by norm_num [msPerDay]]
    exact Int.ceil_intCast 3
  rw [hc]
  rfl

/-- C7: for an owned booking, cancellation succeeds iff
now + 7 days < checkInDate, an already-cancelled booking fails with
AlreadyCancelled, a booking inside the window fails with
CancellationWindowClosed, and every failure leaves the state unchanged. -/
theorem cancellation_window_characterization (db : DB) (uid bid : Nat)
    (now : Int) (b : Booking)
    (hfind : db.bookings.find? (fun x => decide (x.id = bid)) = some b)
    (hown : b.user = uid) :
    (b.status = BookingStatus.cancelled →
        cancelBooking db uid bid now = (db, CancelResult.alreadyCancelled))
    ∧ (¬ b.status = BookingStatus.cancelled →
        ((cancelBooking db uid bid now).2 = CancelResult.ok
          ↔ now + 7 * msPerDay < b.checkInDate))
    ∧ (¬ b.status = BookingStatus.cancelled →
        ¬ now + 7 * msPerDay < b.checkInDate →
        cancelBooking db uid bid now = (db, CancelResult.windowClosed)) := by
  refine ⟨?_, ?_, ?_⟩
  · intro hc
    simp [cancelBooking, hfind, hown, hc]
  · intro hc
    by_cases hw : b.checkInDate ≤ now + 7 * msPerDay
    · simp only [cancelBooking, hfind, hown, if_pos rfl, hc, if_neg, if_pos hw,
        ite_false]
      constructor
      · intro h
        exact absurd h (by simp)
      · intro h
        omega
    · simp only [cancelBooking, hfind, hown, if_pos rfl, hc, if_neg, if_pos,
        if_neg hw, ite_false]
      constructor
      · intro _
        omega
      · intro _
        trivial
  · intro hc hw
    have hle : b.checkInDate ≤ now + 7 * msPerDay := by omega
    simp [cancelBooking, hfind, hown, hc, hle]

/-- Witness for C7: cancelling exactly 8 days before check-in succeeds,
and exactly 6 days before fails with the window error. -/
theorem cancellation_window_characterization_witness :
    (cancelBooking farDB 7 1 0).2 = CancelResult.ok
    ∧ cancelBooking soonDB 7 1 0 = (soonDB, CancelResult.windowClosed) := by
  constructor
  · exact ((cancellation_window_characterization farDB 7 1 0 farBooking
      (by decide) (by decide)).2.1 (by decide)).mpr (by decide)
  · exact (cancellation_window_characterization soonDB 7 1 0 soonBooking
      (by decide) (by decide)).2.2 (by decide) (by decide)

/-- C8: any callback whose signature fails verification against the shared
secret is rejected with the signature error and the state is unchanged: no
booking and no Payment record is modified. -/
theorem webhook_rejects_invalid_signature (secret : String) (db : DB)
    (e : StripeEvent) (sig : String)
    (hsig : ¬ sig = signPayload secret e.serialize) :
    webhookStripe secret db e sig = (db, WebhookResult.sigError) := by
  simp [webhookStripe, hsig]

/-- Witness for C8: a forged signature on a success event is rejected and
leaves the unpaid state untouched. -/
theorem webhook_rejects_invalid_signature_witness :
    webhookStripe "whsec" unpaidDB firstEvent "forged"
      = (unpaidDB, WebhookResult.sigError) :=
  webhook_rejects_invalid_signature "whsec" unpaidDB firstEvent "forged" (by decide)

/-- C10: a successful cancellation flips only the status field of the one
targeted booking — its payment status, price, dates, room count and intent
reference survive — and the Payment collection is untouched. -/
theorem cancellation_changes_only_status (db : DB) (uid bid : Nat) (now : Int)
    (b : Booking)
    (hfind : db.bookings.find? (fun x => decide (x.id = bid)) = some b)
    (hown : b.user = uid) (hnc : ¬ b.status = BookingStatus.cancelled)
    (hwin : now + 7 * msPerDay < b.checkInDate) :
    (cancelBooking db uid bid now).2 = CancelResult.ok
    ∧ (cancelBooking db uid bid now).1.payments = db.payments
    ∧ (∃ l₁ l₂, db.bookings = l₁ ++ b :: l₂ ∧
        (cancelBooking db uid bid now).1.bookings
          = l₁ ++ ({ b with status := BookingStatus.cancelled }) :: l₂)
    ∧ ∀ x ∈ (cancelBooking db uid bid now).1.bookings,
        x ∈ db.bookings ∨
        (x.status = BookingStatus.cancelled ∧ x.id = b.id ∧ x.hotel = b.hotel
          ∧ x.user = b.user ∧ x.checkInDate = b.checkInDate
          ∧ x.checkOutDate = b.checkOutDate ∧ x.numberOfRooms = b.numberOfRooms
          ∧ x.totalPrice = b.totalPrice ∧ x.paymentStatus = b.paymentStatus
          ∧ x.paymentIntentId = b.paymentIntentId) := by
  have hle : ¬ b.checkInDate ≤ now + 7 * msPerDay := by omega
  have hres : cancelBooking db uid bid now
      = ({ db with bookings := (updateFirst (fun x => decide (x.id = bid))
            (fun x => { x with status := .cancelled }) db.bookings) },
         CancelResult.ok) := by
    simp [cancelBooking, hfind, hown, hnc, hle]
  obtain ⟨l₁, l₂, hl, h₁, hu⟩ := find?_decomp hfind
  refine ⟨by rw [hres], by rw [hres], ⟨l₁, l₂, hl, by rw [hres]; exact hu _⟩, ?_⟩
  intro x hx
  rw [hres] at hx
  simp only at hx
  rw [hu] at hx
  rcases List.mem_append.mp hx with hx1 | hx2
  · exact Or.inl (by rw [hl]; exact List.mem_append.mpr (Or.inl hx1))
  · rcases List.mem_cons.mp hx2 with rfl | hx3
    · exact Or.inr ⟨rfl, rfl, rfl, rfl, rfl, rfl, rfl, rfl, rfl, rfl⟩
    · exact Or.inl (by
        rw [hl]
        exact List.mem_append.mpr (Or.inr (List.mem_cons_of_mem _ hx3)))

/-- Witness for C10: cancelling a confirmed, fully paid booking keeps the
Payment collection (with its succeeded record) untouched. -/
theorem cancellation_changes_only_status_witness :
    (cancelBooking paidFarDB 7 1 0).2 = CancelResult.ok
    ∧ (cancelBooking paidFarDB 7 1 0).1.payments = paidFarDB.payments :=
  ⟨(cancellation_changes_only_status paidFarDB 7 1 0 paidFarBooking
      (by decide) (by decide) (by decide) (by decide)).1,
   (cancellation_changes_only_status paidFarDB 7 1 0 paidFarBooking
      (by decide) (by decide) (by decide) (by decide)).2.1⟩

/-- C1 (failing input): booking 1 is pending with a pending Payment record
and no processor success was ever received or verified, yet the owning
user's request of the success page alone confirms the booking, marks its
payment completed and flips the Payment record to succeeded. -/
theorem fallback_confirms_unpaid_booking :
    (paymentSuccess unpaidDB 7 (some 1)).1.bookings
        = [confirmBookingUpdate pendingBooking]
    ∧ (confirmBookingUpdate pendingBooking).status = BookingStatus.confirmed
    ∧ (confirmBookingUpdate pendingBooking).paymentStatus = PaymentStatus.completed
    ∧ (paymentSuccess unpaidDB 7 (some 1)).1.payments
        = [{ pendingPayment with status := PayStatus.succeeded }]
    ∧ (paymentSuccess unpaidDB 7 (some 1)).2 = FallbackResult.confirmedRedirect := by
  decide

/-- Counterexample for C2: a verified webhook success event arriving after
cancellation moves the cancelled booking back to confirmed, so 'cancelled'
is not terminal as claimed. -/
theorem cancelled_booking_reconfirmed_counterexample :
    ((webhookStripe "whsec" cancelledDB firstEvent
        (signPayload "whsec" firstEvent.serialize)).1.bookings.map
      (fun b => b.status)) = [BookingStatus.confirmed]
    ∧ (webhookStripe "whsec" cancelledDB firstEvent
        (signPayload "whsec" firstEvent.serialize)).2 = WebhookResult.received := by
  decide

/-- C2 amended: a cancelled booking is terminal with respect to the
cancellation operation — a repeated cancellation fails with
AlreadyCancelled and changes nothing — but both confirmation paths can
still overwrite a cancelled booking to confirmed/completed. -/
theorem cancelled_terminal_only_for_cancellation (db : DB) (uid bid : Nat)
    (now : Int) (b : Booking) (secret : String) (e : StripeEvent)
    (hfind : db.bookings.find? (fun x => decide (x.id = bid)) = some b)
    (hown : b.user = uid) (hcan : b.status = BookingStatus.cancelled)
    (htype : e.type = "payment_intent.succeeded") (hbid : e.bookingId = bid) :
    cancelBooking db uid bid now = (db, CancelResult.alreadyCancelled)
    ∧ (webhookStripe secret db e (signPayload secret e.serialize)).1.bookings
        = updateFirst (fun x => decide (x.id = bid)) confirmBookingUpdate
            db.bookings
    ∧ confirmBookingUpdate b
        ∈ (webhookStripe secret db e (signPayload secret e.serialize)).1.bookings
    ∧ (confirmBookingUpdate b).status = BookingStatus.confirmed
    ∧ (paymentSuccess db uid (some bid)).1.bookings
        = updateFirst (fun x => decide (x.id = bid)) confirmBookingUpdate
            db.bookings := by
  subst hbid
  have hweb : (webhookStripe secret db e (signPayload secret e.serialize)).1.bookings
      = updateFirst (fun x => decide (x.id = e.bookingId)) confirmBookingUpdate
          db.bookings := by
    simp [webhookStripe, htype]
  refine ⟨by simp [cancelBooking, hfind, hown, hcan], hweb, ?_, rfl, ?_⟩
  · rw [hweb]
    exact mem_updateFirst_of_find? hfind
  · simp [paymentSuccess, hfind, hown]

/-- Witness for C2 amended: on the concrete cancelled state, repeated
cancellation is refused while the verified webhook re-confirms booking 1. -/
theorem cancelled_terminal_only_for_cancellation_witness :
    cancelBooking cancelledDB 7 1 0 = (cancelledDB, CancelResult.alreadyCancelled)
    ∧ confirmBookingUpdate cancelledBooking
        ∈ (webhookStripe "whsec" cancelledDB firstEvent
            (signPayload "whsec" firstEvent.serialize)).1.bookings :=
  ⟨(cancelled_terminal_only_for_cancellation cancelledDB 7 1 0 cancelledBooking
      "whsec" firstEvent (by decide) (by decide) (by decide) rfl rfl).1,
   (cancelled_terminal_only_for_cancellation cancelledDB 7 1 0 cancelledBooking
      "whsec" firstEvent (by decide) (by decide) (by decide) rfl rfl).2.2.1⟩

/-- Counterexample for C3: booking 1 has two payment attempts; the verified
webhook success for the second intent marks only the matched record, but a
following fallback request marks the other record succeeded as well, so the
state after applying the confirmation twice differs from applying it once. -/
theorem double_confirmation_counterexample :
    ((webhookStripe "whsec" twoAttemptDB retryEvent
          (signPayload "whsec" retryEvent.serialize)).1.payments.map
        (fun p => p.status)) = [PayStatus.pending, PayStatus.succeeded]
    ∧ ((paymentSuccess (webhookStripe "whsec" twoAttemptDB retryEvent
          (signPayload "whsec" retryEvent.serialize)).1 7 (some 1)).1.payments.map
        (fun p => p.status)) = [PayStatus.succeeded, PayStatus.succeeded]
    ∧ ¬ (paymentSuccess (webhookStripe "whsec" twoAttemptDB retryEvent
          (signPayload "whsec" retryEvent.serialize)).1 7 (some 1)).1
        = (webhookStripe "whsec" twoAttemptDB retryEvent
          (signPayload "whsec" retryEvent.serialize)).1 := by
  decide

/-- C3 amended: re-delivering the same confirmation through the same path
is a no-op past the first application (webhook twice, or fallback twice),
and the booking document itself is idempotent across mixed paths; only the
Payment records can diverge when the booking has several payment attempts,
because the fallback matches the record by booking id instead of intent id. -/
theorem confirmation_idempotent_amended (secret : String) (db : DB)
    (e : StripeEvent) (sig : String) (uid bid : Nat) (b : Booking)
    (hfind : db.bookings.find? (fun x => decide (x.id = bid)) = some b)
    (hown : b.user = uid) (hbid : e.bookingId = bid)
    (htype : e.type = "payment_intent.succeeded")
    (hsig : sig = signPayload secret e.serialize) :
    (webhookStripe secret (webhookStripe secret db e sig).1 e sig).1
        = (webhookStripe secret db e sig).1
    ∧ (paymentSuccess (paymentSuccess db uid (some bid)).1 uid (some bid)).1
        = (paymentSuccess db uid (some bid)).1
    ∧ (paymentSuccess (webhookStripe secret db e sig).1 uid (some bid)).1.bookings
        = (webhookStripe secret db e sig).1.bookings := by
  subst hbid hsig
  have hbook := updateFirst_idem
    (p := fun x : Booking => decide (x.id = e.bookingId))
    (f := confirmBookingUpdate) (fun a => rfl) (fun a => rfl)
  have hpay := updateFirst_idem
    (p := fun p : Payment => decide (p.paymentIntentId = e.intentId))
    (f := fun p => { p with status := PayStatus.succeeded })
    (fun a => rfl) (fun a => rfl)
  have hpay2 := updateFirst_idem
    (p := fun p : Payment => decide (p.booking = e.bookingId))
    (f := fun p => { p with status := PayStatus.succeeded })
    (fun a => rfl) (fun a => rfl)
  have hfind2 : (updateFirst (fun x : Booking => decide (x.id = e.bookingId))
      confirmBookingUpdate db.bookings).find?
        (fun x => decide (x.id = e.bookingId))
      = some (confirmBookingUpdate b) := by
    rw [find?_updateFirst (p := fun x : Booking => decide (x.id = e.bookingId))
      (f := confirmBookingUpdate) (fun a => rfl), hfind, Option.map_some']
  refine ⟨?_, ?_, ?_⟩
  · simp [webhookStripe, htype, hbook, hpay]
  · simp [paymentSuccess, hfind, hown, hfind2, hbook, hpay2,
      show (confirmBookingUpdate b).user = b.user from rfl]
  · simp [webhookStripe, paymentSuccess, htype, hfind2, hbook,
      show (confirmBookingUpdate b).user = b.user from rfl, hown]

/-- Witness for C3 amended: on the unpaid single-attempt state, the
fallback after the verified webhook leaves the booking list unchanged. -/
theorem confirmation_idempotent_amended_witness :
    (paymentSuccess (webhookStripe "whsec" unpaidDB firstEvent
          (signPayload "whsec" firstEvent.serialize)).1 7 (some 1)).1.bookings
      = (webhookStripe "whsec" unpaidDB firstEvent
          (signPayload "whsec" firstEvent.serialize)).1.bookings :=
  (confirmation_idempotent_amended "whsec" unpaidDB firstEvent
      (signPayload "whsec" firstEvent.serialize) 7 1 pendingBooking
      (by decide) (by decide) rfl rfl rfl).2.2

/-- Counterexample for C4: with two payment attempts, the webhook path and
the fallback path mark different Payment records succeeded, so the two
paths do not converge to the same final state. -/
theorem webhook_fallback_divergence_counterexample :
    ((webhookStripe "whsec" twoAttemptDB retryEvent
        (signPayload "whsec" retryEvent.serialize)).1.payments.map
      (fun p => p.status)) = [PayStatus.pending, PayStatus.succeeded]
    ∧ ((paymentSuccess twoAttemptDB 7 (some 1)).1.payments.map
      (fun p => p.status)) = [PayStatus.succeeded, PayStatus.pending]
    ∧ ¬ (webhookStripe "whsec" twoAttemptDB retryEvent
        (signPayload "whsec" retryEvent.serialize)).1
      = (paymentSuccess twoAttemptDB 7 (some 1)).1 := by
  decide

/-- C4 amended: the fallback path verifies ownership before changing
anything, and the two confirmation paths produce identical final states
whenever every Payment record of the booking carries the confirmed intent
id (e.g. a single payment attempt); with several attempts they may mark
different Payment records, as the counterexample shows. -/
theorem webhook_fallback_convergence_amended (secret : String) (db : DB)
    (e : StripeEvent) (uid bid : Nat) (b : Booking)
    (hfind : db.bookings.find? (fun x => decide (x.id = bid)) = some b)
    (hown : b.user = uid) (hbid : e.bookingId = bid)
    (htype : e.type = "payment_intent.succeeded")
    (hmatch : ∀ p ∈ db.payments,
        (decide (p.booking = bid) : Bool) = decide (p.paymentIntentId = e.intentId)) :
    (webhookStripe secret db e (signPayload secret e.serialize)).1
        = (paymentSuccess db uid (some bid)).1
    ∧ ∀ db2 : DB, ∀ uid2 bid2 : Nat, ∀ b2 : Booking,
        db2.bookings.find? (fun x => decide (x.id = bid2)) = some b2 →
        ¬ b2.user = uid2 →
        paymentSuccess db2 uid2 (some bid2) = (db2, FallbackResult.redirectedAway) := by
  subst hbid
  constructor
  · have hpays : updateFirst (fun p : Payment => decide (p.paymentIntentId = e.intentId))
        (fun p => { p with status := PayStatus.succeeded }) db.payments
        = updateFirst (fun p : Payment => decide (p.booking = e.bookingId))
            (fun p => { p with status := PayStatus.succeeded }) db.payments :=
      updateFirst_congr _ db.payments (fun a ha => (hmatch a ha).symm)
    simp [webhookStripe, paymentSuccess, htype, hfind, hown, hpays]
  · intro db2 uid2 bid2 b2 hfind2 hown2
    simp [paymentSuccess, hfind2, hown2]

/-- Witness for C4 amended: on the unpaid single-attempt state, the two
confirmation paths produce the same final state. -/
theorem webhook_fallback_convergence_amended_witness :
    (webhookStripe "whsec" unpaidDB firstEvent
        (signPayload "whsec" firstEvent.serialize)).1
      = (paymentSuccess unpaidDB 7 (some 1)).1 :=
  (webhook_fallback_convergence_amended "whsec" unpaidDB firstEvent 7 1
      pendingBooking (by decide) (by decide) rfl rfl (by decide)).1

/-- Counterexample for C9: the review route accepts a rating of 6 from a
qualified reviewer (no bounds check exists), and the resulting hotel
average is 6, outside [0,5]. -/
theorem review_rating_bound_counterexample :
    (createReview [paidStayBooking] sampleHotel reviewer 1 6).2
        = ReviewResult.createdOk
    ∧ (createReview [paidStayBooking] sampleHotel reviewer 1 6).1.averageRating = 6
    ∧ ¬ (createReview [paidStayBooking] sampleHotel reviewer 1 6).1.averageRating
        ≤ 5 := by
  have hc : createReview [paidStayBooking] sampleHotel reviewer 1 6
      = ({ sampleHotel with
            reviews := [{ id := 1, rating := 6, authorId := 5 }],
            averageRating :=
              recomputeAverage [{ id := 1, rating := 6, authorId := 5 }] },
          ReviewResult.createdOk) := by
    rfl
  refine ⟨by rw [hc], by rw [hc]; norm_num [recomputeAverage],
    by rw [hc]; norm_num [recomputeAverage]⟩

theorem recomputeAverage_bounds (rs : List Review)
    (h : ∀ r ∈ rs, 1 ≤ r.rating ∧ r.rating ≤ 5) :
    0 ≤ recomputeAverage rs ∧ recomputeAverage rs ≤ 5 := by
  unfold recomputeAverage
  by_cases hlen : rs.length > 0
  · have hlen2 : (0 : ℚ) < (rs.length : ℚ) := by exact_mod_cast hlen
    rw [if_pos hlen]
    constructor
    · apply div_nonneg _ (le_of_lt hlen2)
      have h0 := List.card_nsmul_le_sum (rs.map (fun r => r.rating)) 0
        (fun x hx => by
          obtain ⟨r, hr, rfl⟩ := List.mem_map.mp hx
          exact le_trans zero_le_one (h r hr).1)
      simpa using h0
    · rw [div_le_iff₀ hlen2]
      have h5 := List.sum_le_card_nsmul (rs.map (fun r => r.rating)) 5
        (fun x hx => by
          obtain ⟨r, hr, rfl⟩ := List.mem_map.mp hx
          exact (h r hr).2)
      simp only [List.length_map] at h5
      calc (rs.map fun r => r.rating).sum ≤ rs.length • (5 : ℚ) := h5
        _ = 5 * (rs.length : ℚ) := by rw [nsmul_eq_mul]; ring
  · rw [if_neg hlen]
    norm_num

/-- C9 amended: after review create, update or delete the stored
averageRating equals the value recomputed from the current review set
(sum over count, or 0 with no reviews); and the average lies in [0,5]
whenever every stored rating lies in [1,5] — a bound the code itself does
not enforce on incoming ratings, as the counterexample shows. -/
theorem averageRating_recompute_invariant (bookings : List Booking)
    (h : HotelDoc) (user : UserDoc) (newId : Nat) (rating newRating : ℚ)
    (sessionUserId reviewId : Nat)
    (hinv : h.averageRating = recomputeAverage h.reviews) :
    ((createReview bookings h user newId rating).1.averageRating
        = recomputeAverage (createReview bookings h user newId rating).1.reviews)
    ∧ ((updateReview h sessionUserId reviewId newRating).1.averageRating
        = recomputeAverage (updateReview h sessionUserId reviewId newRating).1.reviews)
    ∧ ((deleteReview h sessionUserId reviewId).1.averageRating
        = recomputeAverage (deleteReview h sessionUserId reviewId).1.reviews)
    ∧ ∀ rs : List Review, (∀ r ∈ rs, 1 ≤ r.rating ∧ r.rating ≤ 5) →
        0 ≤ recomputeAverage rs ∧ recomputeAverage rs ≤ 5 := by
  refine ⟨?_, ?_, ?_, recomputeAverage_bounds⟩
  · unfold createReview
    by_cases h1 : h.authorId = user.id
    · simp [h1, hinv]
    · by_cases h2 : user.isAdmin
      · simp [h1, h2, hinv]
      · by_cases h3 : hasBookedCompleted bookings h.id user.id
        · by_cases h4 : h.reviews.any (fun r => decide (r.authorId = user.id))
          · simp [h1, h2, h3, h4, hinv]
          · simp [h1, h2, h3, h4]
        · simp [h1, h2, h3, hinv]
  · unfold updateReview
    cases hf : h.reviews.find? (fun r => decide (r.id = reviewId)) with
    | none => simp [hinv]
    | some r =>
      by_cases hr : r.authorId = sessionUserId
      · simp [hr]
      · simp [hr, hinv]
  · unfold deleteReview
    cases hf : h.reviews.find? (fun r => decide (r.id = reviewId)) with
    | none => simp [hinv]
    | some r =>
      by_cases hr : r.authorId = sessionUserId
      · simp [hr]
      · simp [hr, hinv]

/-- Witness for C9 amended: the 5-star and 3-star review set averages to a
value inside [0,5]. -/
theorem averageRating_recompute_invariant_witness :
    0 ≤ recomputeAverage [fiveStar, threeStar]
    ∧ recomputeAverage [fiveStar, threeStar] ≤ 5 :=
  (averageRating_recompute_invariant [paidStayBooking] ratedHotel reviewer
      1 4 4 5 10
      (by norm_num [ratedHotel, sampleHotel, recomputeAverage, fiveStar, threeStar])).2.2.2
    [fiveStar, threeStar]
    (by
      intro r hr
      simp only [List.mem_cons, List.not_mem_nil, or_false] at hr
      rcases hr with rfl | rfl
      · constructor <;> norm_num [fiveStar]
      · constructor <;> norm_num [threeStar])

end HotelSys
